import Mathlib

/-!
Shallow embedding of the token-verification core of `pythonRestAPI/main.py`:
the JWKS key-set retrieval (`get_public_keys`), the JWT validation pipeline
(`decode_token` on top of python-jose's `jwt.get_unverified_header` and
`jwt.decode`), the authenticated-request wrapper (`get_current_user`) and the
claim-consuming route handler (`consultar`).

Python exceptions are modelled as `Except PyExc`; the distinct exception
classes the source distinguishes (`requests.RequestException`, `JWTError`,
`KeyError`, `TypeError`, FastAPI's `HTTPException`) are constructors of
`PyExc`, so a `try/except SomeClass` block is a `match` that intercepts
exactly that constructor.  JSON documents are the inductive `Json`, with
arrays and objects as constructor chains (`arrCons`/`objCons`) so that
equality is derivable; a parsed Python dict at the top level of a token part
is a `List (String × Json)` field list.  Signature verification is
idealised: a signature value records which key, algorithm, header and
payload it certifies, and python-jose's verifier accepts exactly a matching
signature (after its algorithm allow-list check, which the source configures
as `algorithms=["RS256"]`).
-/

deriving instance DecidableEq for Except

namespace PyJwt

/-- A JSON value, as produced by `response.json()` / the jose decoders.
Arrays and objects are encoded as constructor chains ending in
`arrNil` / `objNil`. -/
inductive Json where
  | null : Json
  | bool (b : Bool) : Json
  | num (n : Int) : Json
  | str (s : String) : Json
  | arrNil : Json
  | arrCons (head tail : Json) : Json
  | objNil : Json
  | objCons (key : String) (value tail : Json) : Json
deriving DecidableEq, Repr

/-- Python truthiness of a JSON value (`if not key:` in `decode_token`). -/
def Json.truthy : Json → Bool
  | .null => false
  | .bool b => b
  | .num n => n != 0
  | .str s => s != ""
  | .arrNil => false
  | .arrCons _ _ => true
  | .objNil => false
  | .objCons _ _ _ => true

/-- The Python exception classes the source code distinguishes. -/
inductive PyExc where
  | requestException (msg : String) : PyExc
  | jwtError (msg : String) : PyExc
  | keyError (key : String) : PyExc
  | typeError (msg : String) : PyExc
  | httpException (status : Nat) (detail : String) : PyExc
deriving DecidableEq, Repr

/-- First-match lookup in a parsed JSON object's field list (Python `d[k]` /
`d.get(k)` on a dict whose keys are unique after JSON parsing). -/
def lookupStr (fields : List (String × Json)) (k : String) : Option Json :=
  match fields with
  | [] => none
  | (k', v) :: rest => if k' = k then some v else lookupStr rest k

/-- Python `d[k]` on a parsed JSON dict given as a field list: `KeyError`
when the key is absent. -/
def pyIndexDict (fields : List (String × Json)) (k : String) : Except PyExc Json :=
  match lookupStr fields k with
  | some v => .ok v
  | none => .error (.keyError k)

/-- Python `j[k]` on an arbitrary JSON value: walks an object chain, raises
`KeyError` on a dict miss and `TypeError` when the value is not a dict. -/
def pyIndex (j : Json) (k : String) : Except PyExc Json :=
  match j with
  | .objCons k' v tail => if k' = k then .ok v else pyIndex tail k
  | .objNil => .error (.keyError k)
  | .str _ => .error (.typeError "string indices must be integers")
  | .arrNil => .error (.typeError "list indices must be integers")
  | .arrCons _ _ => .error (.typeError "list indices must be integers")
  | _ => .error (.typeError "object is not subscriptable")

/-- Lookup in a Python dict built by a comprehension over (kid, key) pairs:
a later binding of the same key overrides an earlier one, so the LAST match
wins (`keys.get(...)` in `decode_token`). -/
def pydictGet (m : List (Json × Json)) (k : Json) : Option Json :=
  match m with
  | [] => none
  | (k', v) :: rest =>
    match pydictGet rest k with
    | some v' => some v'
    | none => if k' = k then some v else none

/-! ## Azure AD configuration constants (main.py lines 18-21) -/

def TENANT_ID : String := "b5d31b4e-6d83-4373-b61b-de1b0cd6f140"

def CLIENT_ID : String := "6bf0a972-724c-4751-a75c-1e1c6e05af91"

def AUTHORITY : String := "https://login.microsoftonline.com/" ++ TENANT_ID

def JWKS_URL : String := AUTHORITY ++ "/discovery/v2.0/keys"

/-- The audience value passed to `jwt.decode` (main.py line 47):
the f-string interpolating CLIENT_ID after the api:// scheme. -/
def expectedAudience : String := "api://" ++ CLIENT_ID

/-! ## Key Set Provider: `get_public_keys` (main.py lines 28-36) -/

/-- Outcome of the outbound `requests.get(JWKS_URL)` call, the external
input of `get_public_keys`.  `netError` is a transport-level
`requests.RequestException`; `response` carries the HTTP status and the
body, `none` standing for a body that is not decodable as JSON
(`response.json()` then raises `requests.exceptions.JSONDecodeError`,
a `RequestException` subclass). -/
inductive JwksFetch where
  | netError (msg : String) : JwksFetch
  | response (status : Nat) (body : Option Json) : JwksFetch
deriving DecidableEq, Repr

/-- Model of `response.raise_for_status()`: raises `requests.HTTPError` (a
`RequestException`) exactly for status codes 400-599. -/
def raise_for_status (status : Nat) : Except PyExc Unit :=
  if 400 ≤ status ∧ status < 600 then
    .error (.requestException ("HTTP error " ++ toString status))
  else
    .ok ()

/-- The dict comprehension on main.py line 33 — for each `key` in
`jwks["keys"]`, bind `key["kid"]` to `key` — iterating the "keys" array:
each element is indexed at `"kid"` (raising `KeyError` when the field is
absent), producing the kid-to-key association in iteration order. -/
def buildKeyMap : Json → Except PyExc (List (Json × Json))
  | .arrNil => .ok []
  | .arrCons key rest =>
    match pyIndex key "kid" with
    | .error e => .error e
    | .ok kid =>
      match buildKeyMap rest with
      | .error e => .error e
      | .ok tail => .ok ((kid, key) :: tail)
  | _ => .error (.typeError "object is not iterable")

/-- Body of the `try` block of `get_public_keys` (main.py lines 30-33):
GET the JWKS URL, raise for a 4xx/5xx status, parse the body as JSON, index
it at `"keys"` and build the kid-to-key dict. -/
def get_public_keys_try (fetch : JwksFetch) : Except PyExc (List (Json × Json)) :=
  match fetch with
  | .netError msg => .error (.requestException msg)
  | .response status body =>
    match raise_for_status status with
    | .error e => .error e
    | .ok _ =>
      match body with
      | none => .error (.requestException "Expecting value: line 1 column 1 (char 0)")
      | some jwks =>
        match pyIndex jwks "keys" with
        | .error e => .error e
        | .ok ks => buildKeyMap ks

/-- Model of `get_public_keys` (main.py lines 28-36): the `try` body with
`except requests.RequestException` rewrapping ONLY that class as
`HTTPException(status_code=500, detail=f"Failed to fetch JWKS: ...")`.
`KeyError`/`TypeError` raised while shaping the JSON escape unhandled. -/
def get_public_keys (fetch : JwksFetch) : Except PyExc (List (Json × Json)) :=
  match get_public_keys_try fetch with
  | .error (.requestException msg) =>
    .error (.httpException 500 ("Failed to fetch JWKS: " ++ msg))
  | r => r

/-! ## Tokens and python-jose (`jwt.get_unverified_header`, `jwt.decode`) -/

/-- Idealised RS256 signature value: it records the JWK, the algorithm and
the exact header/payload it certifies, so that verification under a key
succeeds exactly when the token was signed for that key, algorithm, header
and payload. -/
structure Sig where
  key : Json
  alg : String
  header : List (String × Json)
  payload : List (String × Json)
deriving DecidableEq, Repr

/-- A bearer token as python-jose sees it: either structurally undecodable,
or a well-formed compact JWT with parsed header dict, parsed payload dict
and a signature part. -/
inductive Token where
  | malformed (raw : String) : Token
  | formed (header payload : List (String × Json)) (sig : Sig) : Token
deriving DecidableEq, Repr

/-- Producing a token: signing `header`/`payload` with (the private
counterpart of) `key` under algorithm `alg`. -/
def signToken (key : Json) (alg : String)
    (header payload : List (String × Json)) : Token :=
  .formed header payload ⟨key, alg, header, payload⟩

/-- Model of `jwt.get_unverified_header(token)` (main.py line 41): decodes the header
segment without signature verification; a structurally malformed token
raises a `JWTError`. -/
def get_unverified_header : Token → Except PyExc (List (String × Json))
  | .malformed _ => .error (.jwtError "Error decoding token headers.")
  | .formed h _ _ => .ok h

/-- python-jose `_validate_nbf`: when a numeric `nbf` claim is present and
still in the future, raise the not-yet-valid `JWTError`. -/
def validate_nbf (payload : List (String × Json)) (now : Int) : Except PyExc Unit :=
  match lookupStr payload "nbf" with
  | some (.num t) =>
    if now < t then .error (.jwtError "The token is not yet valid (nbf)") else .ok ()
  | _ => .ok ()

/-- python-jose `_validate_exp`: when a numeric `exp` claim is present and
strictly in the past, raise the expired-signature `JWTError`. -/
def validate_exp (payload : List (String × Json)) (now : Int) : Except PyExc Unit :=
  match lookupStr payload "exp" with
  | some (.num t) =>
    if t < now then .error (.jwtError "Signature has expired.") else .ok ()
  | _ => .ok ()

/-- Membership of a string in a JSON array chain of strings, checking along
the way that every element is a string (python-jose `_validate_aud` rejects
a non-string entry as an invalid claim format). -/
def audListContains (audience : String) : Json → Except PyExc Bool
  | .arrNil => .ok false
  | .arrCons (.str s) rest =>
    if s = audience then
      match audListContains audience rest with
      | .error e => .error e
      | .ok _ => .ok true
    else audListContains audience rest
  | .arrCons _ _ => .error (.jwtError "Invalid claim format in token")
  | _ => .error (.jwtError "Invalid claim format in token")

/-- python-jose `_validate_aud` with an `audience` argument: a missing `aud`
claim is skipped (the upstream check for that case is commented out); a
string `aud` must equal the audience; a list `aud` must contain it among
all-string entries; any other shape is an invalid claim format. -/
def validate_aud (payload : List (String × Json)) (audience : String) :
    Except PyExc Unit :=
  match lookupStr payload "aud" with
  | none => .ok ()
  | some (.str a) =>
    if a = audience then .ok () else .error (.jwtError "Invalid audience")
  | some (.arrNil) => .error (.jwtError "Invalid audience")
  | some (.arrCons h t) =>
    match audListContains audience (.arrCons h t) with
    | .error e => .error e
    | .ok true => .ok ()
    | .ok false => .error (.jwtError "Invalid audience")
  | some _ => .error (.jwtError "Invalid claim format in token")

/-- python-jose claim validation as configured on main.py line 47: temporal
claims (nbf, exp) against the current time, then the audience claim against
the `audience` argument.  No issuer check is performed: `jwt.decode` is
called WITHOUT an `issuer` argument and jose validates `iss` only when one
is supplied. -/
def validate_claims (payload : List (String × Json)) (audience : String)
    (now : Int) : Except PyExc Unit :=
  match validate_nbf payload now with
  | .error e => .error e
  | .ok _ =>
    match validate_exp payload now with
    | .error e => .error e
    | .ok _ => validate_aud payload audience

/-- Model of `jwt.decode(token, key, algorithms, audience=...)` (main.py line 47):
parse the token, check the declared header algorithm against the allow-list
BEFORE any signature check, verify the signature under `key`, then validate
claims.  On success it returns the payload dict. -/
def jose_decode (token : Token) (key : Json) (algorithms : List String)
    (audience : String) (now : Int) : Except PyExc (List (String × Json)) :=
  match token with
  | .malformed _ => .error (.jwtError "Not enough segments")
  | .formed header payload sig =>
    match lookupStr header "alg" with
    | some (.str alg) =>
      if alg ∈ algorithms then
        if sig = ⟨key, alg, header, payload⟩ then
          match validate_claims payload audience now with
          | .error e => .error e
          | .ok _ => .ok payload
        else .error (.jwtError "Signature verification failed.")
      else .error (.jwtError "The specified alg value is not allowed")
    | _ => .error (.jwtError "The specified alg value is not allowed")

/-! ## Token Verifier: `decode_token` (main.py lines 38-54) -/

/-- Body of the `try` block of `decode_token` (main.py lines 39-49): fetch
the key set FIRST, then decode the unverified header, index it at `"kid"`
(Python `unverified_header["kid"]`, a `KeyError` when absent), look the kid
up in the key dict, reject a missing/falsy key with the 401
kid-not-found `HTTPException`, and finally call `jwt.decode` restricted to
RS256 with the api:// audience. -/
def decode_token_try (fetch : JwksFetch) (now : Int) (token : Token) :
    Except PyExc (List (String × Json)) :=
  match get_public_keys fetch with
  | .error e => .error e
  | .ok keys =>
    match get_unverified_header token with
    | .error e => .error e
    | .ok header =>
      match pyIndexDict header "kid" with
      | .error e => .error e
      | .ok kid =>
        match pydictGet keys kid with
        | none => .error (.httpException 401 "Invalid token header: kid not found")
        | some key =>
          if key.truthy then
            jose_decode token key ["RS256"] expectedAudience now
          else
            .error (.httpException 401 "Invalid token header: kid not found")

/-- Model of `decode_token` (main.py lines 38-54): the `try` body with
`except JWTError` rewrapping ONLY that class as
`HTTPException(401, f"Token decoding failed: ...")`.  The `HTTPException`s
raised inside the block (the 500 from `get_public_keys`, the 401
kid-not-found) and any `KeyError` are not `JWTError`s and propagate
unchanged. -/
def decode_token (fetch : JwksFetch) (now : Int) (token : Token) :
    Except PyExc (List (String × Json)) :=
  match decode_token_try fetch now token with
  | .error (.jwtError msg) =>
    .error (.httpException 401 ("Token decoding failed: " ++ msg))
  | r => r

/-- Model of `get_current_user` (main.py lines 57-64): calls `decode_token` under a
blanket `except Exception` that converts EVERY failure — including the
`HTTPException(500, ...)` raised for a JWKS fetch failure — into
`HTTPException(401, "Invalid credentials")`. -/
def get_current_user (fetch : JwksFetch) (now : Int) (token : Token) :
    Except PyExc (List (String × Json)) :=
  match decode_token fetch now token with
  | .ok payload => .ok payload
  | .error _ => .error (.httpException 401 "Invalid credentials")

/-- The claim-consuming part of the `/getprocessnumber` handler `consultar`
(main.py lines 66-69): reads `user_info.get("upn", "unknown")` and returns
the hardcoded message dict together with that value. -/
def consultar (user_info : List (String × Json)) : List (String × Json) :=
  let user_email :=
    match lookupStr user_info "upn" with
    | some v => v
    | none => .str "unknown"
  [("message", .str "0014356-84.2024.8.16.6000"), ("user_email", user_email)]

/-! ## Concrete test fixtures -/

/-- A stub JWK whose kid is "abc". -/
def jwkAbc : Json := .objCons "kid" (.str "abc") .objNil

/-- A successful JWKS discovery response publishing exactly `jwkAbc`. -/
def goodFetch : JwksFetch :=
  .response 200 (some (.objCons "keys" (.arrCons jwkAbc .arrNil) .objNil))

/-- The key dict `get_public_keys` builds from `goodFetch`. -/
def keysAbc : List (Json × Json) := [(.str "abc", jwkAbc)]

/-- A token header declaring RS256 and the known kid "abc". -/
def hdrAbc : List (String × Json) := [("alg", .str "RS256"), ("kid", .str "abc")]

/-- A payload with the expected audience and an expiry of 100. -/
def payOk : List (String × Json) :=
  [("aud", .str expectedAudience), ("exp", .num 100)]

/-- Equality of `get_public_keys goodFetch` with the built key dict. -/
theorem get_public_keys_goodFetch : get_public_keys goodFetch = .ok keysAbc := rfl

/-! ## Helper lemmas shared by several claims -/

/-- Any outcome of `decode_token` that is a success is a success of the
inner `jose_decode` call on some key found in the fetched key set: the
wrapper only rewraps errors. -/
theorem decode_token_ok_inv (fetch : JwksFetch) (now : Int) (token : Token)
    (claims : List (String × Json))
    (h : decode_token fetch now token = .ok claims) :
    ∃ key, jose_decode token key ["RS256"] expectedAudience now = .ok claims := by
  unfold decode_token at h
  split at h
  · simp at h
  · unfold decode_token_try at h
    split at h
    · simp at h
    · split at h
      · simp at h
      · split at h
        · simp at h
        · split at h
          · simp at h
          · split at h
            · rename_i key _ _
              exact ⟨key, h⟩
            · simp at h

/-! ## Claim C1 -/

/-- Claim C1 (code bug exhibited): when the JWKS fetch fails with a network
error, `decode_token` does raise the server-side
`HTTPException(500, "Failed to fetch JWKS: ...")`, but the public
verification entry point `get_current_user` catches it with its blanket
`except Exception` and reports `HTTPException(401, "Invalid credentials")` —
the provider outage IS reported as invalid credentials, contradicting the
claim that the 500-class failure stays distinct from every 401-class
failure at the entry point. -/
theorem C1_provider_outage_reported_as_invalid_credentials :
    decode_token (.netError "connection error") 50 (signToken jwkAbc "RS256" hdrAbc payOk)
      = .error (.httpException 500 "Failed to fetch JWKS: connection error")
    ∧ get_current_user (.netError "connection error") 50 (signToken jwkAbc "RS256" hdrAbc payOk)
      = .error (.httpException 401 "Invalid credentials") :=
  ⟨rfl, rfl⟩

/-! ## Claim C3 -/

/-- Claim C3 counterexample: a structurally malformed token presented while
the key fetch fails is NOT reported as Malformed — the code calls
`get_public_keys` before decoding the header, so the key-fetch failure (the
500 `HTTPException`) wins, refuting "a malformed token is reported as
Malformed even when the key fetch would fail". -/
theorem C3_counterexample :
    decode_token (.netError "refused") 0 (.malformed "not-a-jwt")
      = .error (.httpException 500 "Failed to fetch JWKS: refused")
    ∧ decode_token (.netError "refused") 0 (.malformed "not-a-jwt")
      ≠ .error (.httpException 401 "Token decoding failed: Error decoding token headers.") :=
  ⟨rfl, by decide⟩

/-- Claim C3 (amended): the steps run fetch-first, so only on a fetch state
where `get_public_keys` succeeds does a structurally malformed token fail
with the Malformed-class error: the 401 wrapping of the jose
header-decoding `JWTError`, produced without consulting the key set
contents. -/
theorem C3_malformed_rejected_when_fetch_succeeds (fetch : JwksFetch)
    (now : Int) (raw : String) (keys : List (Json × Json))
    (hk : get_public_keys fetch = .ok keys) :
    decode_token fetch now (.malformed raw) =
      .error (.httpException 401 "Token decoding failed: Error decoding token headers.") := by
  unfold decode_token decode_token_try
  rw [hk]
  rfl

/-- Witness for the amended C3 theorem at the concrete good fetch state. -/
theorem C3_malformed_witness :
    decode_token goodFetch 0 (.malformed "not-a-jwt") =
      .error (.httpException 401 "Token decoding failed: Error decoding token headers.") :=
  C3_malformed_rejected_when_fetch_succeeds goodFetch 0 "not-a-jwt" keysAbc rfl

/-! ## Claim C5 -/

/-- Claim C5: for every fetched key set and every token whose declared kid
is absent from it, `decode_token` fails with the 401 kid-not-found
`HTTPException` — for EVERY signature value, so no signature verification
outcome is ever involved and the result is never the signature-verification
failure. -/
theorem C5_unknown_kid_rejected (fetch : JwksFetch) (now : Int)
    (keys : List (Json × Json)) (header payload : List (String × Json))
    (sig : Sig) (kidv : Json)
    (hk : get_public_keys fetch = .ok keys)
    (hkid : lookupStr header "kid" = some kidv)
    (hget : pydictGet keys kidv = none) :
    decode_token fetch now (.formed header payload sig) =
      .error (.httpException 401 "Invalid token header: kid not found") := by
  simp only [decode_token, decode_token_try, get_unverified_header, pyIndexDict,
    hk, hkid, hget]

/-- Witness for C5: the stub key set publishes kid "abc" and the token
declares kid "xyz". -/
theorem C5_unknown_kid_witness :
    decode_token goodFetch 50
        (.formed [("alg", .str "RS256"), ("kid", .str "xyz")] payOk
          ⟨jwkAbc, "RS256", [("alg", .str "RS256"), ("kid", .str "xyz")], payOk⟩) =
      .error (.httpException 401 "Invalid token header: kid not found") :=
  C5_unknown_kid_rejected goodFetch 50 keysAbc
    [("alg", .str "RS256"), ("kid", .str "xyz")] payOk
    ⟨jwkAbc, "RS256", [("alg", .str "RS256"), ("kid", .str "xyz")], payOk⟩
    (.str "xyz") rfl rfl rfl

/-! ## Claim C9 -/

/-- Claim C9: for every verified claims mapping lacking the `upn` claim,
the route handler still succeeds and maps the absent claim to the string
"unknown" in its response. -/
theorem C9_missing_upn_maps_to_unknown (user_info : List (String × Json))
    (h : lookupStr user_info "upn" = none) :
    consultar user_info =
      [("message", .str "0014356-84.2024.8.16.6000"),
       ("user_email", .str "unknown")] := by
  unfold consultar
  rw [h]

/-- Witness for C9 at a concrete claims mapping without `upn`. -/
theorem C9_missing_upn_witness :
    consultar [("aud", .str expectedAudience)] =
      [("message", .str "0014356-84.2024.8.16.6000"),
       ("user_email", .str "unknown")] :=
  C9_missing_upn_maps_to_unknown [("aud", .str expectedAudience)] rfl

/-! ## Claim C10 -/

/-- Claim C10: on any fetch state where the key fetch succeeds, a
structurally well-formed token whose header has no kid field makes
`decode_token` end in the `KeyError` from `unverified_header["kid"]`
(the `except JWTError` branch does not intercept it), and the wrapper
`get_current_user` turns it into the generic 401 "Invalid credentials" —
a rejected request, not a 500 and not a crash. -/
theorem C10_missing_kid_keyerror_to_401 (fetch : JwksFetch) (now : Int)
    (keys : List (Json × Json)) (header payload : List (String × Json))
    (sig : Sig)
    (hk : get_public_keys fetch = .ok keys)
    (hkid : lookupStr header "kid" = none) :
    decode_token fetch now (.formed header payload sig) = .error (.keyError "kid")
    ∧ get_current_user fetch now (.formed header payload sig) =
        .error (.httpException 401 "Invalid credentials") := by
  have hd : decode_token fetch now (.formed header payload sig) =
      .error (.keyError "kid") := by
    simp only [decode_token, decode_token_try, get_unverified_header, pyIndexDict,
      hk, hkid]
  refine ⟨hd, ?_⟩
  unfold get_current_user
  rw [hd]

/-- Witness for C10: good fetch, header declaring only the algorithm. -/
theorem C10_missing_kid_witness :
    decode_token goodFetch 50
        (.formed [("alg", .str "RS256")] payOk
          ⟨jwkAbc, "RS256", [("alg", .str "RS256")], payOk⟩) =
      .error (.keyError "kid")
    ∧ get_current_user goodFetch 50
        (.formed [("alg", .str "RS256")] payOk
          ⟨jwkAbc, "RS256", [("alg", .str "RS256")], payOk⟩) =
      .error (.httpException 401 "Invalid credentials") :=
  C10_missing_kid_keyerror_to_401 goodFetch 50 keysAbc
    [("alg", .str "RS256")] payOk
    ⟨jwkAbc, "RS256", [("alg", .str "RS256")], payOk⟩ rfl rfl

/-! ## Success-path helper -/

/-- When the key fetch succeeds, the declared kid resolves to a truthy key,
the header declares RS256, the token is signed for exactly that key, header
and payload, and the nbf/exp/aud validations pass, `decode_token` succeeds
and returns the payload. -/
theorem decode_token_success (fetch : JwksFetch) (now : Int)
    (keys : List (Json × Json)) (kidv key : Json)
    (header payload : List (String × Json))
    (hk : get_public_keys fetch = .ok keys)
    (hkid : lookupStr header "kid" = some kidv)
    (hget : pydictGet keys kidv = some key)
    (htr : key.truthy = true)
    (halg : lookupStr header "alg" = some (.str "RS256"))
    (hnbf : validate_nbf payload now = .ok ())
    (hexp : validate_exp payload now = .ok ())
    (haud : validate_aud payload expectedAudience = .ok ()) :
    decode_token fetch now (signToken key "RS256" header payload) = .ok payload := by
  simp only [decode_token, decode_token_try, signToken, get_unverified_header,
    pyIndexDict, jose_decode, validate_claims, hk, hkid, hget, htr, halg,
    hnbf, hexp, haud]
  simp

/-- An `aud` claim equal to the expected audience passes jose's audience
validation. -/
theorem validate_aud_of_expected (payload : List (String × Json))
    (h : lookupStr payload "aud" = some (.str expectedAudience)) :
    validate_aud payload expectedAudience = .ok () := by
  unfold validate_aud
  rw [h]
  simp

/-! ## Claim C2 -/

/-- A payload naming an issuer that is not the configured tenant authority,
with valid audience and expiry. -/
def payEvilIss : List (String × Json) :=
  [("aud", .str expectedAudience), ("exp", .num 100),
   ("iss", .str "https://evil.example/attacker")]

/-- Claim C2 counterexample: a token whose `iss` claim names an authority
other than the configured tenant (`AUTHORITY ++ "/v2.0"` is the tenant's v2
issuer) is ACCEPTED by `decode_token` when signature, audience and expiry
are valid — `jwt.decode` is called without an `issuer` argument, so the
issuer claim is never validated, refuting the claim that such tokens are
rejected. -/
theorem C2_counterexample :
    decode_token goodFetch 50 (signToken jwkAbc "RS256" hdrAbc payEvilIss) = .ok payEvilIss
    ∧ lookupStr payEvilIss "iss" = some (.str "https://evil.example/attacker")
    ∧ "https://evil.example/attacker" ≠ AUTHORITY ++ "/v2.0" :=
  ⟨rfl, rfl, by decide⟩

/-- Claim C2 (amended): `decode_token` validates signature, audience and
expiry but NOT the issuer: a token carrying any `iss` claim — in particular
one that does not identify the configured tenant authority — is accepted
whenever the key lookup, signature, audience and temporal checks pass. -/
theorem C2_issuer_never_validated (fetch : JwksFetch) (now : Int)
    (keys : List (Json × Json)) (kidv key : Json)
    (header payload : List (String × Json)) (issuer : String)
    (hk : get_public_keys fetch = .ok keys)
    (hkid : lookupStr header "kid" = some kidv)
    (hget : pydictGet keys kidv = some key)
    (htr : key.truthy = true)
    (halg : lookupStr header "alg" = some (.str "RS256"))
    (hnbf : validate_nbf payload now = .ok ())
    (hexp : validate_exp payload now = .ok ())
    (haud : lookupStr payload "aud" = some (.str expectedAudience))
    (hiss : lookupStr payload "iss" = some (.str issuer))
    (hne : issuer ≠ AUTHORITY ++ "/v2.0") :
    decode_token fetch now (signToken key "RS256" header payload) = .ok payload :=
  decode_token_success fetch now keys kidv key header payload hk hkid hget htr
    halg hnbf hexp (validate_aud_of_expected payload haud)

/-- Witness for the amended C2 theorem: the wrong-issuer payload is
accepted at the concrete good fetch state. -/
theorem C2_issuer_witness :
    decode_token goodFetch 50 (signToken jwkAbc "RS256" hdrAbc payEvilIss) = .ok payEvilIss :=
  C2_issuer_never_validated goodFetch 50 keysAbc (.str "abc") jwkAbc hdrAbc
    payEvilIss "https://evil.example/attacker" rfl rfl rfl rfl rfl rfl rfl rfl rfl
    (by decide)

/-! ## Claim C4 -/

/-- Claim C4: a token whose declared header algorithm is anything but
RS256 — in particular the symmetric HS256 family or "none" — is never
accepted by `decode_token`, whatever its signature value: `jwt.decode` is
restricted to the RS256 allow-list and checks the declared algorithm before
any signature verification. -/
theorem C4_non_rs256_algorithm_rejected (fetch : JwksFetch) (now : Int)
    (header payload : List (String × Json)) (sig : Sig) (a : String)
    (claims : List (String × Json))
    (halg : lookupStr header "alg" = some (.str a)) (hne : a ≠ "RS256") :
    decode_token fetch now (.formed header payload sig) ≠ .ok claims := by
  intro h
  obtain ⟨key, hj⟩ := decode_token_ok_inv fetch now (.formed header payload sig) claims h
  simp only [jose_decode, halg] at hj
  simp [hne] at hj

/-- Witness for C4: an HS256 token "signed" with the published public key
itself (the classic algorithm-confusion forgery) is rejected. -/
theorem C4_hs256_witness :
    decode_token goodFetch 50
        (.formed [("alg", .str "HS256"), ("kid", .str "abc")] payOk
          ⟨jwkAbc, "HS256", [("alg", .str "HS256"), ("kid", .str "abc")], payOk⟩) ≠
      .ok payOk :=
  C4_non_rs256_algorithm_rejected goodFetch 50
    [("alg", .str "HS256"), ("kid", .str "abc")] payOk
    ⟨jwkAbc, "HS256", [("alg", .str "HS256"), ("kid", .str "abc")], payOk⟩
    "HS256" payOk rfl (by decide)

/-! ## Claim C6 -/

/-- Claim C6: a token carrying an `aud` claim different from the expected
audience (the client identifier under the api scheme) is rejected with the 401 wrapping of
jose's Invalid audience `JWTError`, even though it is signed for exactly
the matched key, header and payload. -/
theorem C6_audience_mismatch_rejected (fetch : JwksFetch) (now : Int)
    (keys : List (Json × Json)) (kidv key : Json)
    (header payload : List (String × Json)) (a : String)
    (hk : get_public_keys fetch = .ok keys)
    (hkid : lookupStr header "kid" = some kidv)
    (hget : pydictGet keys kidv = some key)
    (htr : key.truthy = true)
    (halg : lookupStr header "alg" = some (.str "RS256"))
    (hnbf : validate_nbf payload now = .ok ())
    (hexp : validate_exp payload now = .ok ())
    (haud : lookupStr payload "aud" = some (.str a))
    (hne : a ≠ expectedAudience) :
    decode_token fetch now (signToken key "RS256" header payload) =
      .error (.httpException 401 "Token decoding failed: Invalid audience") := by
  simp only [decode_token, decode_token_try, signToken, get_unverified_header,
    pyIndexDict, jose_decode, validate_claims, validate_aud, hk, hkid, hget, htr,
    halg, hnbf, hexp, haud]
  simp [hne]

/-- Witness for C6: a correctly signed, unexpired token for audience
"api://some-other-client" is rejected as Invalid audience. -/
theorem C6_audience_witness :
    decode_token goodFetch 50
        (signToken jwkAbc "RS256" hdrAbc
          [("aud", .str "api://some-other-client"), ("exp", .num 100)]) =
      .error (.httpException 401 "Token decoding failed: Invalid audience") :=
  C6_audience_mismatch_rejected goodFetch 50 keysAbc (.str "abc") jwkAbc hdrAbc
    [("aud", .str "api://some-other-client"), ("exp", .num 100)]
    "api://some-other-client" rfl rfl rfl rfl rfl rfl rfl rfl (by decide)

/-! ## Claim C7 -/

/-- Claim C7 (round trip): a token signed for a key published under its
declared kid, carrying the expected audience and temporal claims valid at
verification time, is accepted by `decode_token`, which returns exactly the
claims mapping that was signed. -/
theorem C7_round_trip (fetch : JwksFetch) (now : Int)
    (keys : List (Json × Json)) (kidv key : Json)
    (header payload : List (String × Json))
    (hk : get_public_keys fetch = .ok keys)
    (hkid : lookupStr header "kid" = some kidv)
    (hget : pydictGet keys kidv = some key)
    (htr : key.truthy = true)
    (halg : lookupStr header "alg" = some (.str "RS256"))
    (hnbf : validate_nbf payload now = .ok ())
    (hexp : validate_exp payload now = .ok ())
    (haud : lookupStr payload "aud" = some (.str expectedAudience)) :
    decode_token fetch now (signToken key "RS256" header payload) = .ok payload :=
  decode_token_success fetch now keys kidv key header payload hk hkid hget htr
    halg hnbf hexp (validate_aud_of_expected payload haud)

/-- Witness for C7 at the concrete stub key set and a fresh valid token. -/
theorem C7_round_trip_witness :
    decode_token goodFetch 50 (signToken jwkAbc "RS256" hdrAbc payOk) = .ok payOk :=
  C7_round_trip goodFetch 50 keysAbc (.str "abc") jwkAbc hdrAbc payOk
    rfl rfl rfl rfl rfl rfl rfl rfl

/-! ## Claim C8 -/

/-- Claim C8 counterexample: a 200 response whose JSON body lacks the
"keys" array, or whose key object lacks the "kid" field, does NOT produce
the 500 `HTTPException` (the `KeyFetchError` analogue): the `KeyError`
raised while shaping the JSON is not a `requests.RequestException`, escapes
`get_public_keys` untyped, and refutes "it never escapes with a different,
untyped error". -/
theorem C8_counterexample :
    get_public_keys (.response 200 (some .objNil)) = .error (.keyError "keys")
    ∧ get_public_keys
        (.response 200 (some (.objCons "keys" (.arrCons .objNil .arrNil) .objNil)))
      = .error (.keyError "kid") :=
  ⟨rfl, rfl⟩

/-- Claim C8 (amended): network/transport failures, 4xx/5xx statuses and a
non-JSON body all yield the 500 `HTTPException` carrying the underlying
cause, but a well-formed JSON body lacking the "keys" member escapes
`get_public_keys` as an uncaught `KeyError` instead. -/
theorem C8_fetch_error_taxonomy :
    (∀ msg, get_public_keys (.netError msg) =
        .error (.httpException 500 ("Failed to fetch JWKS: " ++ msg)))
    ∧ (∀ status body, 400 ≤ status → status < 600 →
        get_public_keys (.response status body) =
          .error (.httpException 500
            ("Failed to fetch JWKS: " ++ ("HTTP error " ++ toString status))))
    ∧ (∀ status, ¬(400 ≤ status ∧ status < 600) →
        get_public_keys (.response status none) =
          .error (.httpException 500
            "Failed to fetch JWKS: Expecting value: line 1 column 1 (char 0)"))
    ∧ (∀ status jwks, ¬(400 ≤ status ∧ status < 600) →
        pyIndex jwks "keys" = .error (.keyError "keys") →
        get_public_keys (.response status (some jwks)) = .error (.keyError "keys")) := by
  refine ⟨fun msg => rfl, ?_, ?_, ?_⟩
  · intro status body h1 h2
    simp only [get_public_keys, get_public_keys_try, raise_for_status]
    rw [if_pos ⟨h1, h2⟩]
  · intro status h
    simp only [get_public_keys, get_public_keys_try, raise_for_status]
    rw [if_neg h]
    rfl
  · intro status jwks h hkeys
    simp only [get_public_keys, get_public_keys_try, raise_for_status]
    rw [if_neg h]
    simp only [hkeys]

/-- Witness for the amended C8 theorem at concrete fetch outcomes. -/
theorem C8_taxonomy_witness :
    get_public_keys (.netError "timeout") =
      .error (.httpException 500 "Failed to fetch JWKS: timeout")
    ∧ get_public_keys (.response 503 (some .objNil)) =
      .error (.httpException 500 "Failed to fetch JWKS: HTTP error 503")
    ∧ get_public_keys (.response 200 none) =
      .error (.httpException 500
        "Failed to fetch JWKS: Expecting value: line 1 column 1 (char 0)")
    ∧ get_public_keys (.response 200 (some .objNil)) = .error (.keyError "keys") :=
  ⟨C8_fetch_error_taxonomy.1 "timeout",
   C8_fetch_error_taxonomy.2.1 503 (some .objNil) (by decide) (by decide),
   C8_fetch_error_taxonomy.2.2.1 200 (by decide),
   C8_fetch_error_taxonomy.2.2.2 200 .objNil (by decide) rfl⟩

end PyJwt
